import Mathlib

/-!
Verification of `projects/scratch/start-server.py`: a static-file HTTP server
with permissive CORS headers.  The script subclasses the standard-library
static-file handler, overriding `end_headers` (to inject three CORS headers
into every response) and `do_OPTIONS` (empty `200`), and a `main` that changes
into the script's directory, prints a banner, binds port 8080 and serves
forever, catching `KeyboardInterrupt` and `OSError`.

The embedding below models the request/response behaviour as pure functions
and `main` as a function of an environment describing the outcomes of the OS
interactions (chdir, bind, the event that ends the serve loop).
-/

namespace StartServer

/-! ## HTTP request/response model -/

/-- Request methods the handler distinguishes: `GET` and `HEAD` are handled by
the inherited static-file behaviour, `OPTIONS` by the explicit override, and
every other method (e.g. `POST`) falls through to the base class default. -/
inductive Method where
  | GET
  | HEAD
  | OPTIONS
  | other (name : String)
deriving DecidableEq

/-- An HTTP response: status code, the headers in the order they are sent,
and the body bytes (modelled as naturals < 256). -/
structure Response where
  status : Nat
  headers : List (String × String)
  body : List Nat
deriving DecidableEq

/-- The filesystem visible under the working directory: an association list
from request paths to the bytes of the existing, readable file there (absent
paths are missing or unreadable files). -/
def FileSystem := List (String × List Nat)

/-- Look a path up in the filesystem. -/
def readFile : FileSystem → String → Option (List Nat)
  | [], _ => none
  | (p, bs) :: rest, q => if p = q then some bs else readFile rest q

/-! ## The CORS handler (from `CORSHTTPRequestHandler` in the source) -/

/-- The three headers sent by the `end_headers` override, in source order. -/
def corsHeaders : List (String × String) :=
  [("Access-Control-Allow-Origin", "*"),
   ("Access-Control-Allow-Methods", "GET, POST, OPTIONS"),
   ("Access-Control-Allow-Headers", "Content-Type")]

/-- `end_headers` override: the handler has buffered `buffered` via
`send_header`; the override sends the three CORS headers and then flushes via
`super().end_headers()`, so the response carries `buffered` followed by the
CORS headers. -/
def end_headers (buffered : List (String × String)) : List (String × String) :=
  buffered ++ corsHeaders

/-- `do_OPTIONS` override: `send_response(200)` then `end_headers()`, no body
written and no filesystem access. -/
def do_OPTIONS : Response :=
  { status := 200, headers := end_headers [], body := [] }

/-! ## Base static-file behaviour (inherited, not in this repository) -/

/-- Modelled from the spec: the file extension a path's `Content-Type` is
inferred from (the suffix after the final dot of the path, empty when the
path has no dot). -/
def extensionOf (p : String) : String :=
  match (p.splitOn ".").reverse with
  | [] => ""
  | [_] => ""
  | e :: _ => "." ++ e

/-- Modelled from the spec: standard MIME-type inference from the file
extension, as performed by the inherited static-file handler (absent from
this repository's sources). -/
def guessContentType (p : String) : String :=
  match extensionOf p with
  | ".html" => "text/html"
  | ".htm" => "text/html"
  | ".js" => "text/javascript"
  | ".css" => "text/css"
  | ".json" => "application/json"
  | ".png" => "image/png"
  | ".jpg" => "image/jpeg"
  | ".txt" => "text/plain"
  | _ => "application/octet-stream"

/-- Modelled from the spec: the headers the base file-serving behaviour
buffers for a successful file response (`Content-Type` inferred from the
extension, `Content-Length` of the body). -/
def baseHeadersFor (p : String) (bytes : List Nat) : List (String × String) :=
  [("Content-Type", guessContentType p),
   ("Content-Length", toString bytes.length)]

/-- Modelled from the spec: the body of the standard "not found" response of
the base handler (ASCII bytes of the reason phrase). -/
def notFoundBody : List Nat :=
  [78, 111, 116, 32, 70, 111, 117, 110, 100]

/-- Modelled from the spec: the standard "not found" response of the base
handler; its headers are flushed through the overridden `end_headers`. -/
def notFoundResponse : Response :=
  { status := 404,
    headers := end_headers [("Content-Type", "text/html")],
    body := notFoundBody }

/-- Modelled from the spec: the base handler's response to an unsupported
method; its headers also pass through the overridden `end_headers`. -/
def notImplementedResponse : Response :=
  { status := 501,
    headers := end_headers [("Content-Type", "text/html")],
    body := [] }

/-- Modelled from the spec: the inherited `do_GET` — resolve the path against
the working directory; an existing readable file is served with status 200,
its bytes, and a `Content-Type` inferred from the extension; otherwise the
standard not-found response.  All headers flush through the overridden
`end_headers`. -/
def do_GET (fs : FileSystem) (p : String) : Response :=
  match readFile fs p with
  | some bytes =>
      { status := 200, headers := end_headers (baseHeadersFor p bytes), body := bytes }
  | none => notFoundResponse

/-- Modelled from the spec: the inherited `do_HEAD` — like `do_GET` but with
no body written. -/
def do_HEAD (fs : FileSystem) (p : String) : Response :=
  match readFile fs p with
  | some bytes =>
      { status := 200, headers := end_headers (baseHeadersFor p bytes), body := [] }
  | none => { notFoundResponse with body := [] }

/-- Dispatch of one request by `CORSHTTPRequestHandler`: `do_OPTIONS` is the
override from the source; `GET`/`HEAD` and the unsupported-method fallback are
the inherited behaviour. -/
def handle (fs : FileSystem) (m : Method) (p : String) : Response :=
  match m with
  | Method.OPTIONS => do_OPTIONS
  | Method.GET => do_GET fs p
  | Method.HEAD => do_HEAD fs p
  | Method.other _ => notImplementedResponse

/-- Modelled from the spec: the serve loop — each accepted request is handled
independently and the loop continues with the remaining requests regardless
of the response produced (a handler error never terminates the process). -/
def serve (fs : FileSystem) : List (Method × String) → List Response
  | [] => []
  | (m, p) :: rest => handle fs m p :: serve fs rest

/-! ## The `main` entry point (from the source) -/

/-- The fixed port constant from `main`. -/
def port : Nat := 8080

/-- The bind address passed to `TCPServer` in the source: empty host means
all interfaces, at the fixed port. -/
def bindAddress : String × Nat := ("", port)

/-- An `OSError` value: its `errno` and the human-readable `str(e)` text. -/
structure OSError where
  errno : Int
  msg : String
deriving DecidableEq

/-- The event that ends `main`'s try-block: `serve_forever` never returns, so
the block ends with a `KeyboardInterrupt`, an `OSError` raised by the
`TCPServer` constructor (bind failure), or an `OSError` raised while
serving. -/
inductive RunEvent where
  | keyboardInterrupt
  | bindError (e : OSError)
  | serveError (e : OSError)
deriving DecidableEq

/-- The environment a run of the script observes: the directory containing
the script, whether `os.chdir` fails, the event ending the serve block, and
the (unconsumed) command line and process environment. -/
structure Env where
  scriptDir : String
  chdirFails : Bool
  event : RunEvent
  argv : List String
  envVars : String → Option String

/-- The observable outcome of a run: the lines printed to stdout, the process
exit code, whether a listening socket was ever bound, whether it is still
held at exit, and the working directory in effect after startup (none when
`chdir` failed). -/
structure MainResult where
  output : List String
  exitCode : Nat
  socketBound : Bool
  socketHeldAtExit : Bool
  cwdAtServe : Option String
deriving DecidableEq

/-- The four banner lines `main` prints after `chdir` and before constructing
the server, with `os.getcwd()` equal to the script's directory. -/
def bannerLines (cwd : String) : List String :=
  [s!"🌐 Starting HTTP server on port {port}",
   s!"📁 Serving files from: {cwd}",
   s!"🔗 Open: http://localhost:{port}/test/texture-system-test.html",
   "   Press Ctrl+C to stop"]

/-- The line printed by the `KeyboardInterrupt` handler. -/
def stoppedLine : String := "\n🛑 Server stopped"

/-- The port-in-use diagnostic printed when the caught `OSError` has
`errno == 48`. -/
def portInUseLine : String := s!"❌ Port {port} is already in use"

/-- The remediation hint printed with the port-in-use diagnostic. -/
def tryLine : String := "   Try: lsof -ti:8080 | xargs kill"

/-- The generic diagnostic printed for any other caught `OSError`. -/
def serverErrorLine (m : String) : String := s!"❌ Server error: {m}"

/-- The lines the `except OSError` clause prints: the port-in-use pair when
`errno == 48`, otherwise the generic message with the error's text. -/
def oserrorLines (e : OSError) : List String :=
  if e.errno = 48 then [portInUseLine, tryLine]
  else
    let m := e.msg
    [serverErrorLine m]

/-- The embedding of `main`: `os.chdir` to the script's directory (an
uncaught failure aborts the interpreter with exit code 1 before anything is
printed); print the banner; enter the `with TCPServer(...)`/`serve_forever`
block; the `except` clauses print their messages and swallow the exception,
after which `main` returns and the process exits 0.  The `with` statement
closes the server, so the socket is never held at exit. -/
def main (env : Env) : MainResult :=
  if env.chdirFails then
    { output := [], exitCode := 1, socketBound := false,
      socketHeldAtExit := false, cwdAtServe := none }
  else
    let out := bannerLines env.scriptDir
    match env.event with
    | RunEvent.keyboardInterrupt =>
        { output := out ++ [stoppedLine], exitCode := 0, socketBound := true,
          socketHeldAtExit := false, cwdAtServe := some env.scriptDir }
    | RunEvent.bindError e =>
        { output := out ++ oserrorLines e, exitCode := 0, socketBound := false,
          socketHeldAtExit := false, cwdAtServe := some env.scriptDir }
    | RunEvent.serveError e =>
        { output := out ++ oserrorLines e, exitCode := 0, socketBound := true,
          socketHeldAtExit := false, cwdAtServe := some env.scriptDir }

/-! ## Concrete runs used by witnesses and counterexamples -/

def fsDemo : FileSystem :=
  [("/test/texture-system-test.html", [60, 104, 116, 109, 108, 62]),
   ("/index.html", [104, 105])]

def osErr48 : OSError := { errno := 48, msg := "[Errno 48] Address already in use" }

def osErr98 : OSError := { errno := 98, msg := "[Errno 98] Address already in use" }

def osErrPerm : OSError := { errno := 13, msg := "[Errno 13] Permission denied" }

def envLinuxConflict : Env :=
  { scriptDir := "/srv/theater-stage/projects/scratch", chdirFails := false,
    event := RunEvent.bindError osErr98, argv := [], envVars := fun _ => none }

def envMacConflict : Env :=
  { scriptDir := "/srv/theater-stage/projects/scratch", chdirFails := false,
    event := RunEvent.bindError osErr48, argv := [], envVars := fun _ => none }

def envMacServeConflict : Env :=
  { scriptDir := "/srv/z", chdirFails := false,
    event := RunEvent.serveError osErr48, argv := [], envVars := fun _ => none }

def envInterruptRun : Env :=
  { scriptDir := "/srv/theater-stage", chdirFails := false,
    event := RunEvent.keyboardInterrupt, argv := [], envVars := fun _ => none }

def envOrderDemo : Env :=
  { scriptDir := "/srv/order", chdirFails := false,
    event := RunEvent.keyboardInterrupt, argv := [], envVars := fun _ => none }

def envBannerBeforeBind : Env :=
  { scriptDir := "/srv/order", chdirFails := false,
    event := RunEvent.bindError osErrPerm, argv := [], envVars := fun _ => none }

def envChdirFail : Env :=
  { scriptDir := "/srv/x", chdirFails := true,
    event := RunEvent.keyboardInterrupt, argv := [], envVars := fun _ => none }

/-! ## Helper lemmas -/

lemma cors_not_in_baseHeadersFor (p : String) (bytes : List Nat) :
    ∀ hdr ∈ corsHeaders, hdr ∉ baseHeadersFor p bytes := by
  intro hdr hmem
  simp [corsHeaders] at hmem
  rcases hmem with h | h | h <;> subst h <;> simp [baseHeadersFor]

lemma cors_not_in_error_base :
    ∀ hdr ∈ corsHeaders, hdr ∉ [("Content-Type", "text/html")] := by decide

lemma serve_append (fs : FileSystem) (l l' : List (Method × String)) :
    serve fs (l ++ l') = serve fs l ++ serve fs l' := by
  induction l with
  | nil => rfl
  | cons hd tl ih =>
      obtain ⟨m, p⟩ := hd
      simp [serve, ih]

lemma serverErrorLine_data (m : String) :
    (serverErrorLine m).data = "❌ Server error: ".data ++ m.data := by
  simp [serverErrorLine, toString, String.append_empty, String.data_append]

lemma serverErrorLine_ne_stoppedLine (m : String) : serverErrorLine m ≠ stoppedLine := by
  intro h
  have h2 : (serverErrorLine m).data = stoppedLine.data := by rw [h]
  rw [serverErrorLine_data] at h2
  rw [show "❌ Server error: ".data = '❌' :: " Server error: ".data from rfl] at h2
  rw [show stoppedLine.data = '\n' :: "🛑 Server stopped".data from rfl] at h2
  rw [List.cons_append] at h2
  injection h2 with hc ht
  exact absurd hc (by decide)

/-! ## Claims -/

/-- Claim C1 -/
theorem cors_headers_on_every_response (fs : FileSystem) (m : Method) (p : String) :
    ∃ base, (handle fs m p).headers = base ++ corsHeaders
      ∧ ∀ hdr ∈ corsHeaders, hdr ∉ base := by
  cases m with
  | GET =>
      cases h : readFile fs p with
      | some bytes =>
          exact ⟨baseHeadersFor p bytes, by simp [handle, do_GET, h, end_headers],
                 cors_not_in_baseHeadersFor p bytes⟩
      | none =>
          exact ⟨[("Content-Type", "text/html")],
                 by simp [handle, do_GET, h, notFoundResponse, end_headers],
                 cors_not_in_error_base⟩
  | HEAD =>
      cases h : readFile fs p with
      | some bytes =>
          exact ⟨baseHeadersFor p bytes, by simp [handle, do_HEAD, h, end_headers],
                 cors_not_in_baseHeadersFor p bytes⟩
      | none =>
          exact ⟨[("Content-Type", "text/html")],
                 by simp [handle, do_HEAD, h, notFoundResponse, end_headers],
                 cors_not_in_error_base⟩
  | OPTIONS => exact ⟨[], rfl, by decide⟩
  | other n => exact ⟨[("Content-Type", "text/html")], rfl, cors_not_in_error_base⟩

/-- Claim C1 witness -/
theorem cors_headers_on_every_response_witness :
    ∃ base, (handle fsDemo Method.GET "/index.html").headers = base ++ corsHeaders
      ∧ ∀ hdr ∈ corsHeaders, hdr ∉ base :=
  cors_headers_on_every_response fsDemo Method.GET "/index.html"

/-- Claim C2 -/
theorem options_request_empty_200 (fs fs' : FileSystem) (p p' : String) :
    handle fs Method.OPTIONS p
      = { status := 200, headers := corsHeaders, body := [] }
    ∧ handle fs Method.OPTIONS p = handle fs' Method.OPTIONS p' :=
  ⟨rfl, rfl⟩

/-- Claim C3 counterexample -/
theorem bind_failure_exit_code_cex :
    (main envMacConflict).exitCode = 0
    ∧ (main envLinuxConflict).exitCode = 0
    ∧ portInUseLine ∉ (main envLinuxConflict).output := by decide

/-- Claim C3 amended -/
theorem oserror_swallowed_exit_zero (env : Env) (err : OSError)
    (hc : env.chdirFails = false)
    (he : env.event = RunEvent.bindError err ∨ env.event = RunEvent.serveError err) :
    (main env).exitCode = 0
    ∧ (main env).socketHeldAtExit = false
    ∧ (main env).output = bannerLines env.scriptDir ++ oserrorLines err := by
  rcases he with h | h <;> simp [main, hc, h]

/-- Claim C3 amended witness -/
theorem oserror_swallowed_exit_zero_witness :
    (main envLinuxConflict).exitCode = 0
    ∧ (main envLinuxConflict).socketHeldAtExit = false
    ∧ (main envLinuxConflict).output
        = bannerLines envLinuxConflict.scriptDir ++ oserrorLines osErr98 :=
  oserror_swallowed_exit_zero envLinuxConflict osErr98 rfl (Or.inl rfl)

/-- Claim C4 -/
theorem get_existing_file (fs : FileSystem) (f : String) (bytes : List Nat)
    (h : readFile fs f = some bytes) :
    (handle fs Method.GET f).status = 200
    ∧ (handle fs Method.GET f).body = bytes
    ∧ (handle fs Method.GET f).headers = baseHeadersFor f bytes ++ corsHeaders
    ∧ ("Content-Type", guessContentType f) ∈ (handle fs Method.GET f).headers := by
  simp [handle, do_GET, h, end_headers, baseHeadersFor]

/-- Claim C4 witness -/
theorem get_existing_file_witness :
    (handle fsDemo Method.GET "/index.html").status = 200
    ∧ (handle fsDemo Method.GET "/index.html").body = [104, 105]
    ∧ (handle fsDemo Method.GET "/index.html").headers
        = baseHeadersFor "/index.html" [104, 105] ++ corsHeaders
    ∧ ("Content-Type", guessContentType "/index.html")
        ∈ (handle fsDemo Method.GET "/index.html").headers :=
  get_existing_file fsDemo "/index.html" [104, 105] rfl

/-- Claim C5 -/
theorem interrupt_clean_shutdown (env : Env) (hc : env.chdirFails = false) :
    ((main env).output.getLast? = some stoppedLine
        ↔ env.event = RunEvent.keyboardInterrupt)
    ∧ (env.event = RunEvent.keyboardInterrupt →
        (main env).exitCode = 0 ∧ (main env).socketBound = true
        ∧ (main env).socketHeldAtExit = false
        ∧ (main env).output = bannerLines env.scriptDir ++ [stoppedLine]) := by
  cases henv : env.event with
  | keyboardInterrupt =>
      refine ⟨⟨fun _ => ?_, fun _ => ?_⟩, fun _ => ⟨?_, ?_, ?_, ?_⟩⟩ <;>
        simp [main, hc, henv, bannerLines]
  | bindError e =>
      refine ⟨⟨fun hlast => ?_, fun hev => by simp at hev⟩, fun hev => by simp at hev⟩
      exfalso
      by_cases h48 : e.errno = 48
      · simp [main, hc, henv, oserrorLines, h48, bannerLines] at hlast
        exact absurd hlast (by decide)
      · simp [main, hc, henv, oserrorLines, h48, bannerLines] at hlast
        exact serverErrorLine_ne_stoppedLine e.msg hlast
  | serveError e =>
      refine ⟨⟨fun hlast => ?_, fun hev => by simp at hev⟩, fun hev => by simp at hev⟩
      exfalso
      by_cases h48 : e.errno = 48
      · simp [main, hc, henv, oserrorLines, h48, bannerLines] at hlast
        exact absurd hlast (by decide)
      · simp [main, hc, henv, oserrorLines, h48, bannerLines] at hlast
        exact serverErrorLine_ne_stoppedLine e.msg hlast

/-- Claim C5 witness -/
theorem interrupt_clean_shutdown_witness :
    ((main envInterruptRun).output.getLast? = some stoppedLine
        ↔ envInterruptRun.event = RunEvent.keyboardInterrupt)
    ∧ (envInterruptRun.event = RunEvent.keyboardInterrupt →
        (main envInterruptRun).exitCode = 0 ∧ (main envInterruptRun).socketBound = true
        ∧ (main envInterruptRun).socketHeldAtExit = false
        ∧ (main envInterruptRun).output
            = bannerLines envInterruptRun.scriptDir ++ [stoppedLine]) :=
  interrupt_clean_shutdown envInterruptRun rfl

/-- Claim C6 -/
theorem missing_file_not_found_serving_continues
    (fs : FileSystem) (bad good : String) (bytes : List Nat)
    (rest : List (Method × String))
    (hbad : readFile fs bad = none) (hgood : readFile fs good = some bytes) :
    (handle fs Method.GET bad).status = 404
    ∧ serve fs ((Method.GET, bad) :: rest ++ [(Method.GET, good)])
        = handle fs Method.GET bad
            :: (serve fs rest ++ [handle fs Method.GET good])
    ∧ (handle fs Method.GET good).status = 200
    ∧ (handle fs Method.GET good).body = bytes := by
  refine ⟨?_, ?_, ?_, ?_⟩
  · simp [handle, do_GET, hbad, notFoundResponse]
  · simp [serve, serve_append]
  · simp [handle, do_GET, hgood]
  · simp [handle, do_GET, hgood]

/-- Claim C6 witness -/
theorem missing_file_not_found_serving_continues_witness :
    (handle fsDemo Method.GET "/missing.html").status = 404
    ∧ serve fsDemo ((Method.GET, "/missing.html")
          :: [(Method.OPTIONS, "/x")] ++ [(Method.GET, "/index.html")])
        = handle fsDemo Method.GET "/missing.html"
            :: (serve fsDemo [(Method.OPTIONS, "/x")]
                  ++ [handle fsDemo Method.GET "/index.html"])
    ∧ (handle fsDemo Method.GET "/index.html").status = 200
    ∧ (handle fsDemo Method.GET "/index.html").body = [104, 105] :=
  missing_file_not_found_serving_continues fsDemo "/missing.html" "/index.html"
    [104, 105] [(Method.OPTIONS, "/x")] rfl rfl

/-- Claim C7 -/
theorem chdir_first_and_fatal_on_failure (env : Env) (h : env.chdirFails = true) :
    (main env).exitCode ≠ 0
    ∧ (main env).socketBound = false
    ∧ (main env).output = []
    ∧ (main env).cwdAtServe = none
    ∧ (main { env with chdirFails := false }).cwdAtServe = some env.scriptDir := by
  refine ⟨?_, ?_, ?_, ?_, ?_⟩
  · simp [main, h]
  · simp [main, h]
  · simp [main, h]
  · simp [main, h]
  · cases henv : env.event <;> simp [main, henv]

/-- Claim C7 witness -/
theorem chdir_first_and_fatal_on_failure_witness :
    (main envChdirFail).exitCode ≠ 0
    ∧ (main envChdirFail).socketBound = false
    ∧ (main envChdirFail).output = []
    ∧ (main envChdirFail).cwdAtServe = none
    ∧ (main { envChdirFail with chdirFails := false }).cwdAtServe
        = some envChdirFail.scriptDir :=
  chdir_first_and_fatal_on_failure envChdirFail rfl

/-- Claim C8 -/
theorem no_cli_no_env_fixed_port (env : Env) (a a' : List String)
    (v v' : String → Option String) :
    main { env with argv := a, envVars := v } = main { env with argv := a', envVars := v' }
    ∧ bindAddress = ("", 8080) ∧ port = 8080 :=
  ⟨rfl, rfl, rfl⟩

/-- Claim C9 counterexample -/
theorem banner_before_bind_cex :
    (main envBannerBeforeBind).socketBound = false
    ∧ (main envBannerBeforeBind).output.take 4
        = bannerLines envBannerBeforeBind.scriptDir := by decide

/-- Claim C9 amended -/
theorem startup_order_chdir_print_bind (env : Env) (err : OSError)
    (hc : env.chdirFails = false) :
    (main env).cwdAtServe = some env.scriptDir
    ∧ (main env).output.take 4 = bannerLines env.scriptDir
    ∧ (main { env with event := RunEvent.bindError err }).socketBound = false
    ∧ (main { env with event := RunEvent.bindError err }).output.take 4
        = bannerLines env.scriptDir := by
  refine ⟨?_, ?_, ?_, ?_⟩
  · cases henv : env.event <;> simp [main, hc, henv]
  · cases henv : env.event <;> simp [main, hc, henv, bannerLines]
  · simp [main, hc]
  · simp [main, hc, bannerLines]

/-- Claim C9 amended witness -/
theorem startup_order_chdir_print_bind_witness :
    (main envOrderDemo).cwdAtServe = some envOrderDemo.scriptDir
    ∧ (main envOrderDemo).output.take 4 = bannerLines envOrderDemo.scriptDir
    ∧ (main { envOrderDemo with event := RunEvent.bindError osErrPerm }).socketBound = false
    ∧ (main { envOrderDemo with event := RunEvent.bindError osErrPerm }).output.take 4
        = bannerLines envOrderDemo.scriptDir :=
  startup_order_chdir_print_bind envOrderDemo osErrPerm rfl

/-- Claim C10 -/
theorem errno48_gates_port_diagnostic (env : Env) (err : OSError)
    (hc : env.chdirFails = false)
    (he : env.event = RunEvent.bindError err ∨ env.event = RunEvent.serveError err) :
    (main env).output
      = bannerLines env.scriptDir
        ++ (if err.errno = 48 then [portInUseLine, tryLine]
            else [serverErrorLine err.msg]) := by
  rcases he with h | h <;> by_cases h48 : err.errno = 48 <;>
    simp [main, hc, h, oserrorLines, h48]

/-- Claim C10 witness -/
theorem errno48_gates_port_diagnostic_witness :
    (main envMacServeConflict).output
      = bannerLines envMacServeConflict.scriptDir
        ++ (if osErr48.errno = 48 then [portInUseLine, tryLine]
            else [serverErrorLine osErr48.msg]) :=
  errno48_gates_port_diagnostic envMacServeConflict osErr48 rfl (Or.inr rfl)

end StartServer
